import Mathlib

/-!
# lima-memtester: call sequences of the glue code

A shallow embedding of the two C files of the repository:

* `lima-memtester.c` (`fb_unblank_thread`, `lima_thread`, `start_lima_thread`, `main`),
* `limare/tests/fan_smoothed/limare.c` (`main`).

Both files are straight-line glue over external APIs, so a function is embedded as a
value of `Run ε α`: the list of external calls it has issued so far, in program order,
together with the way its control flow ended.  The values that the external calls
return and that the code inspects are inputs of the embedding; `memtester_main` and
`textured_cube_main` may also never return.  The other library calls (`printf`,
`pthread_create`, `usleep`, `sleep`, `close`) are taken to return, and their results
are ignored as in the source.  Each function is run as a single thread of control; the
interleaving of the threads of one process is outside the embedding, and `assert` is
the macro of `<assert.h>` with `NDEBUG` undefined.
-/

/-- How the control flow of a C function ended. -/
inductive Outcome (α : Type) where
  /-- The function returned `v` to its caller. -/
  | returned (v : α)
  /-- The process was terminated by a call of `abort()`. -/
  | aborted
  /-- The process was terminated by a failed `assert`. -/
  | assert_failed
  /-- An external call did not hand control back. -/
  | blocked
  /-- A loop is still executing when the iteration budget is used up. -/
  | running
  deriving DecidableEq

/-- The calls of type `ε` issued by a C function, oldest first, and how it ended. -/
structure Run (ε : Type) (α : Type) where
  trace : List ε
  outcome : Outcome α
  deriving DecidableEq

namespace Run

variable {ε α β : Type}

/-- Sequencing of C statements: the continuation runs only after a normal return. -/
def bind (r : Run ε α) (f : α → Run ε β) : Run ε β :=
  match r.outcome with
  | .returned v => ⟨r.trace ++ (f v).trace, (f v).outcome⟩
  | .aborted => ⟨r.trace, .aborted⟩
  | .assert_failed => ⟨r.trace, .assert_failed⟩
  | .blocked => ⟨r.trace, .blocked⟩
  | .running => ⟨r.trace, .running⟩

instance : Monad (Run ε) where
  pure v := ⟨[], .returned v⟩
  bind := Run.bind

/-- An external call that hands back `ret`. -/
def call (e : ε) (ret : α) : Run ε α := ⟨[e], .returned ret⟩

/-- An external call that may never hand control back (`none`). -/
def call_opt (e : ε) (ret : Option α) : Run ε α :=
  match ret with
  | some v => ⟨[e], .returned v⟩
  | none => ⟨[e], .blocked⟩

/-- The C macro `assert(c)` with assertions enabled. -/
def c_assert (c : Bool) : Run ε Unit :=
  if c then ⟨[], .returned ()⟩ else ⟨[], .assert_failed⟩

end Run

/-- A C pointer; only the distinction between `NULL` and the rest is used. -/
abbrev Ptr := Nat

/-- The null pointer. -/
def NULL : Ptr := 0

namespace LimaMemtester

/-- The two `pthread_t` locals of `start_lima_thread`. -/
inductive ThreadVar where
  | th1
  | th2
  deriving DecidableEq

/-- The thread entry points defined in `lima-memtester.c`. -/
inductive StartRoutine where
  | lima_thread
  | fb_unblank_thread
  deriving DecidableEq

/-- The external calls that `lima-memtester.c` can issue, with their arguments.
`pthread_join` is part of the pthread API and is listed so that its absence from a
trace is a statement about the code. -/
inductive Event where
  | printf (format : String)
  /-- Modelled from the spec: `load_mali_kernel_module` is declared in
  `load_mali_kernel_module.h`, which is not among the sources; the spec describes it as
  a loader that ensures the GPU driver module is present.  The call takes no argument,
  yields no value and is taken to return to its caller. -/
  | load_mali_kernel_module
  /-- The call `pthread_create(&thread, NULL, start_routine, NULL)`. -/
  | pthread_create (thread : ThreadVar) (start_routine : StartRoutine)
  | pthread_join (thread : ThreadVar)
  | usleep (usec : Nat)
  | sleep (seconds : Nat)
  | memtester_main (argc : Int) (argv : List String)
  | textured_cube_main
  | abort
  /-- The call `open(pathname, flags)`. -/
  | sys_open (pathname : String) (flags : Nat)
  | ioctl (fd : Int) (request : Nat) (arg : Nat)
  | close (fd : Int)
  deriving DecidableEq

/-- The value of `O_RDWR` in `<fcntl.h>` on Linux. -/
def O_RDWR : Nat := 2

/-- The value of `FBIOBLANK` in `<linux/fb.h>`. -/
def FBIOBLANK : Nat := 0x4611

/-- The value of `FB_BLANK_UNBLANK` in `<linux/fb.h>`. -/
def FB_BLANK_UNBLANK : Nat := 0

/-- What the operating system answers to `fb_unblank_thread`. -/
structure FbEnv where
  /-- The value returned by `open("/dev/fb0", O_RDWR)`. -/
  open_ret : Int
  /-- The value returned by the `ioctl` of loop iteration `i`, counted from 0. -/
  ioctl_ret : Nat → Int

/-- The loop `while (1) { ... }` of `fb_unblank_thread`; `i` counts the iterations
already done and the last argument bounds the iterations still to be run. -/
def fb_unblank_loop (env : FbEnv) (fd : Int) : Nat → Nat → Run Event Unit
  | _, 0 => ⟨[], .running⟩
  | i, fuel + 1 =>
    if (1 : Int) ≠ 0 then do
      let ret ← Run.call (Event.ioctl fd FBIOBLANK FB_BLANK_UNBLANK) (env.ioctl_ret i)
      Run.c_assert (ret == 0)
      Run.call (Event.sleep 1) ()
      fb_unblank_loop env fd (i + 1) fuel
    else
      pure ()

/-- The thread function `fb_unblank_thread`, run for at most `fuel` loop iterations. -/
def fb_unblank_thread (env : FbEnv) (fuel : Nat) : Run Event Ptr := do
  let fd ← Run.call (Event.sys_open "/dev/fb0" O_RDWR) env.open_ret
  Run.c_assert (fd != -1)
  fb_unblank_loop env fd 0 fuel
  Run.call (Event.close fd) ()
  return NULL

/-- The call `abort()`: it is issued and the process ends. -/
def c_abort : Run Event Unit := ⟨[Event.abort], .aborted⟩

/-- The thread function `lima_thread`; `textured_cube_ret` is the value that
`textured_cube_main` returns, or `none` when it never returns. -/
def lima_thread (textured_cube_ret : Option Int) : Run Event Ptr := do
  let _ ← Run.call_opt Event.textured_cube_main textured_cube_ret
  c_abort
  return NULL

/-- The function `start_lima_thread`. -/
def start_lima_thread : Run Event Unit := do
  Run.call Event.load_mali_kernel_module ()
  Run.call (Event.pthread_create .th1 .lima_thread) ()
  Run.call (Event.pthread_create .th2 .fb_unblank_thread) ()
  Run.call (Event.usleep 300000) ()
  Run.call (Event.printf "\n") ()

/-- The function `main` of `lima-memtester.c`; `memtester_ret` is the value that
`memtester_main` returns, or `none` when it never returns. -/
def main (argc : Int) (argv : List String) (memtester_ret : Option Int) : Run Event Int := do
  Run.call (Event.printf "This is a simple textured cube demo from the lima driver and\n") ()
  Run.call (Event.printf "a memtester. Both combined in a single program. The mali400\n") ()
  Run.call (Event.printf "hardware is only used to stress RAM in the background. But\n") ()
  Run.call (Event.printf "this happens to significantly increase chances of exposing\n") ()
  Run.call (Event.printf "memory stability related problems.\n\n") ()
  if argc > 1 then
    start_lima_thread
  let _ ← Run.call_opt (Event.memtester_main argc argv) memtester_ret
  return 0

/-- Whether an event is a call of `memtester_main`. -/
def Event.is_memtester_main : Event → Bool
  | .memtester_main _ _ => true
  | _ => false

/-- Whether an event starts or waits for the GPU stress: a call of
`load_mali_kernel_module`, `pthread_create` or `pthread_join`. -/
def Event.is_gpu_stress_call : Event → Bool
  | .load_mali_kernel_module => true
  | .pthread_create _ _ => true
  | .pthread_join _ => true
  | _ => false

/-- The events of a trace that lie strictly between the second `pthread_create` of
`start_lima_thread` and the next call of `memtester_main`. -/
def between_threads_and_memtester (t : List Event) : List Event :=
  ((t.dropWhile (fun e => e != Event.pthread_create .th2 .fb_unblank_thread)).drop 1).takeWhile
    (fun e => !e.is_memtester_main)

/-- One iteration of the loop of `fb_unblank_thread` on descriptor `fd` in which the
`ioctl` succeeds. -/
def fb_iteration (fd : Int) : List Event :=
  [Event.ioctl fd FBIOBLANK FB_BLANK_UNBLANK, Event.sleep 1]

/-- The trace of `n` successful iterations: `fb_iteration fd` repeated `n` times. -/
def fb_iterations (fd : Int) : Nat → List Event
  | 0 => []
  | n + 1 => fb_iteration fd ++ fb_iterations fd n

end LimaMemtester

namespace FanSmoothed

/-- The calls into the limare library issued by the `fan_smoothed` test, with the
arguments written at the call site (`limare.h` is not among the sources).  Integer
arguments are the non-negative literals of the source; float data is recorded as the
decimal literals written there.  Calls whose result `main` does not inspect are taken
to return. -/
inductive Call where
  | limare_init
  | limare_buffer_clear (state : Ptr)
  | limare_state_setup (state : Ptr) (width height : Int) (clear_color : Nat)
  | vertex_shader_attach (state : Ptr) (source : String)
  | fragment_shader_attach (state : Ptr) (source : String)
  | limare_link (state : Ptr)
  | limare_attribute_pointer (state : Ptr) (name : String)
      (component_size component_count entry_count : Nat) (data : List ℚ)
  | limare_new (state : Ptr)
  | limare_draw_arrays (state : Ptr) (mode : Nat) (start count : Nat)
  | limare_flush (state : Ptr)
  | limare_buffer_swap (state : Ptr)
  | limare_finish (state : Ptr)
  deriving DecidableEq

/-- The value of `GL_TRIANGLE_FAN` in `<GLES2/gl2.h>`. -/
def GL_TRIANGLE_FAN : Nat := 0x0006

/-- The local array `vertices` of `main`. -/
def vertices : List ℚ :=
  [ 0.0,  0.8, 0.0,
   -0.8,  0.4, 0.0,
   -0.6, -0.5, 0.0,
    0.0, -0.8, 0.0,
    0.6, -0.5, 0.0,
    0.8,  0.4, 0.0]

/-- The local array `colors` of `main`. -/
def colors : List ℚ :=
  [1.0, 1.0, 1.0, 1.0,
   1.0, 0.0, 0.0, 1.0,
   1.0, 1.0, 0.0, 1.0,
   0.0, 1.0, 0.0, 1.0,
   0.0, 1.0, 1.0, 1.0,
   0.0, 0.0, 1.0, 1.0]

/-- The local string `vertex_shader_source` of `main`. -/
def vertex_shader_source : String :=
  "attribute vec4 aPosition;    \n" ++
  "attribute vec4 aColor;       \n" ++
  "                             \n" ++
  "varying vec4 vColor;         \n" ++
  "                             \n" ++
  "void main()                  \n" ++
  "\x7b                            \n" ++
  "    vColor = aColor;         \n" ++
  "    gl_Position = aPosition; \n" ++
  "\x7d                            \n"

/-- The local string `fragment_shader_source` of `main`. -/
def fragment_shader_source : String :=
  "precision mediump float;     \n" ++
  "                             \n" ++
  "varying vec4 vColor;         \n" ++
  "                             \n" ++
  "void main()                  \n" ++
  "\x7b                            \n" ++
  "    gl_FragColor = vColor;   \n" ++
  "\x7d                            \n"

/-- What the limare library answers to the `fan_smoothed` test: the return values that
`main` inspects. -/
structure Env where
  /-- The pointer returned by `limare_init()`. -/
  limare_init : Ptr
  /-- The value returned by `limare_state_setup`. -/
  limare_state_setup : Int
  /-- The value returned by `limare_draw_arrays`. -/
  limare_draw_arrays : Int
  /-- The value returned by `limare_flush`. -/
  limare_flush : Int

/-- The function `main` of `limare/tests/fan_smoothed/limare.c`. -/
def main (env : Env) : Run Call Int := do
  let state ← Run.call Call.limare_init env.limare_init
  if state == NULL then
    return -1
  Run.call (Call.limare_buffer_clear state) ()
  let ret ← Run.call (Call.limare_state_setup state 0 0 0xFF505050) env.limare_state_setup
  if ret != 0 then
    return ret
  Run.call (Call.vertex_shader_attach state vertex_shader_source) ()
  Run.call (Call.fragment_shader_attach state fragment_shader_source) ()
  Run.call (Call.limare_link state) ()
  Run.call (Call.limare_attribute_pointer state "aPosition" 4 3 6 vertices) ()
  Run.call (Call.limare_attribute_pointer state "aColor" 4 4 6 colors) ()
  Run.call (Call.limare_new state) ()
  let ret ← Run.call (Call.limare_draw_arrays state GL_TRIANGLE_FAN 0 6) env.limare_draw_arrays
  if ret != 0 then
    return ret
  let ret ← Run.call (Call.limare_flush state) env.limare_flush
  if ret != 0 then
    return ret
  Run.call (Call.limare_buffer_swap state) ()
  Run.call (Call.limare_finish state) ()
  return 0

/-- Whether a call is one of the steps init, buffer clear, link shaders, bind
attribute, draw arrays, flush, buffer swap, finish. -/
def Call.is_sequence_step : Call → Bool
  | .limare_init => true
  | .limare_buffer_clear _ => true
  | .limare_link _ => true
  | .limare_attribute_pointer _ _ _ _ _ _ => true
  | .limare_draw_arrays _ _ _ _ => true
  | .limare_flush _ => true
  | .limare_buffer_swap _ => true
  | .limare_finish _ => true
  | _ => false

/-- The name, component count, entry count and data of every
`limare_attribute_pointer` call of a trace. -/
def attribute_pointers : List Call → List (String × Nat × Nat × List ℚ)
  | [] => []
  | .limare_attribute_pointer _ name _ component_count entry_count data :: t =>
    (name, component_count, entry_count, data) :: attribute_pointers t
  | _ :: t => attribute_pointers t

/-- The start index and count of every `limare_draw_arrays` call of a trace. -/
def draw_ranges : List Call → List (Nat × Nat)
  | [] => []
  | .limare_draw_arrays _ _ start count :: t => (start, count) :: draw_ranges t
  | _ :: t => draw_ranges t

end FanSmoothed

/-! ## Sequencing lemmas -/

theorem Run.bind_call {ε α β : Type} (e : ε) (ret : α) (f : α → Run ε β) :
    (Run.call e ret >>= f) = ⟨e :: (f ret).trace, (f ret).outcome⟩ := by
  rfl

theorem Run.bind_pure {ε α β : Type} (v : α) (f : α → Run ε β) :
    ((pure v : Run ε α) >>= f) = f v := by
  rfl

theorem Run.bind_assert_true {ε β : Type} (f : Unit → Run ε β) :
    ((Run.c_assert true : Run ε Unit) >>= f) = f () := by
  rfl

theorem Run.bind_assert_false {ε β : Type} (f : Unit → Run ε β) :
    ((Run.c_assert false : Run ε Unit) >>= f) = ⟨[], .assert_failed⟩ := by
  rfl

/-! ## `lima-memtester.c` -/

namespace LimaMemtester

theorem main_trace (argc : Int) (argv : List String) (memtester_ret : Option Int) :
    (main argc argv memtester_ret).trace =
      [Event.printf "This is a simple textured cube demo from the lima driver and\n",
       Event.printf "a memtester. Both combined in a single program. The mali400\n",
       Event.printf "hardware is only used to stress RAM in the background. But\n",
       Event.printf "this happens to significantly increase chances of exposing\n",
       Event.printf "memory stability related problems.\n\n"] ++
      (if argc > 1 then
        [Event.load_mali_kernel_module,
         Event.pthread_create .th1 .lima_thread,
         Event.pthread_create .th2 .fb_unblank_thread,
         Event.usleep 300000,
         Event.printf "\n"]
       else []) ++
      [Event.memtester_main argc argv] := by
  by_cases h : argc > 1 <;> cases memtester_ret <;>
    simp [main, start_lima_thread, Run.bind_call, Run.bind_pure, h, Run.call_opt, bind, Run.bind,
      pure, Run.call]

/-- C1: for every `argc` and `argv`, and whether or not `start_lima_thread` ran, the
trace of `main` holds exactly one call of `memtester_main`; its arguments are the
`argc` and `argv` that `main` received, and it is the last call `main` issues. -/
theorem main_forwards_arguments (argc : Int) (argv : List String)
    (memtester_ret : Option Int) :
    (main argc argv memtester_ret).trace.filter Event.is_memtester_main =
        [Event.memtester_main argc argv] ∧
      (main argc argv memtester_ret).trace.getLast? = some (Event.memtester_main argc argv) := by
  rw [main_trace]
  by_cases h : argc > 1 <;> simp [h, Event.is_memtester_main]

/-- C2: the calls of `load_mali_kernel_module`, `pthread_create` and `pthread_join` in
the trace of `main` are, in order, `load_mali_kernel_module`, the creation of
`lima_thread` and the creation of `fb_unblank_thread` when `argc > 1`, and none at all
when `argc <= 1`; in particular no thread is ever joined. -/
theorem main_gpu_stress_iff_argument (argc : Int) (argv : List String)
    (memtester_ret : Option Int) :
    (main argc argv memtester_ret).trace.filter Event.is_gpu_stress_call =
      if argc > 1 then
        [Event.load_mali_kernel_module,
         Event.pthread_create .th1 .lima_thread,
         Event.pthread_create .th2 .fb_unblank_thread]
      else [] := by
  rw [main_trace]
  by_cases h : argc > 1 <;> simp [h, Event.is_gpu_stress_call]

/-- C3: whatever value `textured_cube_main` returns, `lima_thread` then calls `abort`
and ends there; and whether or not `textured_cube_main` returns, `lima_thread` never
returns a value to its caller. -/
theorem lima_thread_aborts (r : Int) (textured_cube_ret : Option Int) (v : Ptr) :
    lima_thread (some r) = ⟨[Event.textured_cube_main, Event.abort], .aborted⟩ ∧
      (lima_thread textured_cube_ret).outcome ≠ .returned v := by
  constructor
  · simp [lima_thread, c_abort, Run.call_opt, bind, Run.bind]
  · cases textured_cube_ret <;> simp [lima_thread, c_abort, Run.call_opt, bind, Run.bind]

/-- C9: whenever `memtester_main` returns, with whatever value `r`, `main` returns 0. -/
theorem main_returns_zero (argc : Int) (argv : List String) (r : Int) :
    (main argc argv (some r)).outcome = .returned 0 := by
  by_cases h : argc > 1 <;>
    simp [main, start_lima_thread, Run.bind_call, Run.bind_pure, h, Run.call_opt, bind, Run.bind,
      pure, Run.call]

theorem fb_unblank_loop_succ (env : FbEnv) (fd : Int) (i fuel : Nat) :
    fb_unblank_loop env fd i (fuel + 1) =
      if env.ioctl_ret i = 0 then
        ⟨fb_iteration fd ++ (fb_unblank_loop env fd (i + 1) fuel).trace,
          (fb_unblank_loop env fd (i + 1) fuel).outcome⟩
      else ⟨[Event.ioctl fd FBIOBLANK FB_BLANK_UNBLANK], .assert_failed⟩ := by
  by_cases h : env.ioctl_ret i = 0
  · simp [fb_unblank_loop, h, Run.bind_call, Run.bind_assert_true, fb_iteration]
  · have hb : (env.ioctl_ret i == 0) = false := by simpa using h
    simp [fb_unblank_loop, h, hb, Run.bind_call, Run.bind_assert_false]

theorem fb_unblank_loop_running (env : FbEnv) (fd : Int) (fuel : Nat) :
    ∀ i, (∀ m, i ≤ m → m < i + fuel → env.ioctl_ret m = 0) →
      fb_unblank_loop env fd i fuel = ⟨fb_iterations fd fuel, .running⟩ := by
  induction fuel with
  | zero => intro i _; rfl
  | succ k ih =>
    intro i h
    have h0 : env.ioctl_ret i = 0 := h i (Nat.le_refl i) (by omega)
    have hk := ih (i + 1) (fun m h1 h2 => h m (by omega) (by omega))
    rw [fb_unblank_loop_succ, if_pos h0, hk]
    rfl

theorem fb_unblank_loop_fails (env : FbEnv) (fd : Int) (k : Nat) :
    ∀ i fuel, (∀ m, i ≤ m → m < i + k → env.ioctl_ret m = 0) → env.ioctl_ret (i + k) ≠ 0 →
      k < fuel →
      fb_unblank_loop env fd i fuel =
        ⟨fb_iterations fd k ++ [Event.ioctl fd FBIOBLANK FB_BLANK_UNBLANK], .assert_failed⟩ := by
  induction k with
  | zero =>
    intro i fuel _ hbad hlt
    obtain ⟨f, rfl⟩ : ∃ f, fuel = f + 1 := ⟨fuel - 1, by omega⟩
    rw [fb_unblank_loop_succ, if_neg (by simpa using hbad)]
    rfl
  | succ k ih =>
    intro i fuel hok hbad hlt
    obtain ⟨f, rfl⟩ : ∃ f, fuel = f + 1 := ⟨fuel - 1, by omega⟩
    have h0 : env.ioctl_ret i = 0 := hok i (Nat.le_refl i) (by omega)
    have hk := ih (i + 1) f (fun m h1 h2 => hok m (by omega) (by omega))
      (by rw [show i + 1 + k = i + (k + 1) by omega]; exact hbad) (by omega)
    rw [fb_unblank_loop_succ, if_pos h0, hk]
    simp [fb_iterations]

theorem fb_unblank_thread_open_failed (env : FbEnv) (fuel : Nat) (h : env.open_ret = -1) :
    fb_unblank_thread env fuel = ⟨[Event.sys_open "/dev/fb0" O_RDWR], .assert_failed⟩ := by
  simp [fb_unblank_thread, h, Run.bind_call, Run.bind_assert_false]

theorem fb_unblank_thread_open_ok (env : FbEnv) (fuel : Nat) (h : env.open_ret ≠ -1) :
    fb_unblank_thread env fuel =
      ⟨Event.sys_open "/dev/fb0" O_RDWR ::
          (fb_unblank_loop env env.open_ret 0 fuel >>= fun _ =>
            Run.call (Event.close env.open_ret) () >>= fun _ => pure NULL).trace,
        (fb_unblank_loop env env.open_ret 0 fuel >>= fun _ =>
            Run.call (Event.close env.open_ret) () >>= fun _ => pure NULL).outcome⟩ := by
  have hb : (env.open_ret != -1) = true := by simpa using h
  simp [fb_unblank_thread, hb, Run.bind_call, Run.bind_assert_true]

theorem bind_of_running {α β : Type} (t : List Event) (f : α → Run Event β) :
    ((⟨t, .running⟩ : Run Event α) >>= f) = ⟨t, .running⟩ := by
  rfl

theorem bind_of_assert_failed {α β : Type} (t : List Event) (f : α → Run Event β) :
    ((⟨t, .assert_failed⟩ : Run Event α) >>= f) = ⟨t, .assert_failed⟩ := by
  rfl

theorem fb_unblank_thread_running (env : FbEnv) (fuel : Nat) (hopen : env.open_ret ≠ -1)
    (hioctl : ∀ m, m < fuel → env.ioctl_ret m = 0) :
    fb_unblank_thread env fuel =
      ⟨Event.sys_open "/dev/fb0" O_RDWR :: fb_iterations env.open_ret fuel, .running⟩ := by
  rw [fb_unblank_thread_open_ok env fuel hopen,
    fb_unblank_loop_running env env.open_ret fuel 0 (fun m _ h => hioctl m (by omega)),
    bind_of_running]

theorem fb_unblank_thread_ioctl_failed (env : FbEnv) (n fuel : Nat) (hopen : env.open_ret ≠ -1)
    (hok : ∀ m, m < n → env.ioctl_ret m = 0) (hbad : env.ioctl_ret n ≠ 0) (hlt : n < fuel) :
    fb_unblank_thread env fuel =
      ⟨Event.sys_open "/dev/fb0" O_RDWR ::
          (fb_iterations env.open_ret n ++
            [Event.ioctl env.open_ret FBIOBLANK FB_BLANK_UNBLANK]),
        .assert_failed⟩ := by
  rw [fb_unblank_thread_open_ok env fuel hopen,
    fb_unblank_loop_fails env env.open_ret n 0 fuel (fun m _ h => hok m (by omega))
      (by simpa using hbad) hlt,
    bind_of_assert_failed]

theorem fb_iterations_succ (fd : Int) (n : Nat) :
    fb_iterations fd (n + 1) =
      Event.ioctl fd FBIOBLANK FB_BLANK_UNBLANK :: Event.sleep 1 :: fb_iterations fd n := by
  rfl

theorem fb_iterations_getElem (fd : Int) (fuel : Nat) :
    ∀ j, j < fuel →
      (fb_iterations fd fuel)[2 * j]? = some (Event.ioctl fd FBIOBLANK FB_BLANK_UNBLANK) ∧
        (fb_iterations fd fuel)[2 * j + 1]? = some (Event.sleep 1) := by
  induction fuel with
  | zero => intro j h; omega
  | succ k ih =>
    intro j h
    rw [fb_iterations_succ]
    cases j with
    | zero => simp
    | succ m =>
      have hm := ih m (by omega)
      rw [show 2 * (m + 1) = 2 * m + 1 + 1 by omega]
      simpa using hm

theorem fb_iterations_no_close (fd fd1 : Int) (n : Nat) :
    Event.close fd1 ∉ fb_iterations fd n := by
  induction n with
  | zero => simp [fb_iterations]
  | succ k ih => simp [fb_iterations_succ, ih]

/-- C4: `fb_unblank_thread` ends in an assertion failure (for some iteration budget)
exactly when `open` returns -1 or some `ioctl` returns a non-zero value.  When `open`
returns -1 the only call issued is that `open`.  When the `ioctl` of iteration `n` is
the first one to return non-zero, the thread issues `open`, `n` complete iterations and
that one `ioctl`, and nothing after it, however many more iterations it is allowed. -/
theorem fb_unblank_thread_assertion_failure (env : FbEnv) :
    ((∃ fuel, (fb_unblank_thread env fuel).outcome = .assert_failed) ↔
        (env.open_ret = -1 ∨ ∃ n, env.ioctl_ret n ≠ 0)) ∧
      (env.open_ret = -1 → ∀ fuel,
        fb_unblank_thread env fuel =
          ⟨[Event.sys_open "/dev/fb0" O_RDWR], .assert_failed⟩) ∧
      (∀ n, env.open_ret ≠ -1 → (∀ m, m < n → env.ioctl_ret m = 0) → env.ioctl_ret n ≠ 0 →
        ∀ fuel, n < fuel →
          fb_unblank_thread env fuel =
            ⟨Event.sys_open "/dev/fb0" O_RDWR ::
                (fb_iterations env.open_ret n ++
                  [Event.ioctl env.open_ret FBIOBLANK FB_BLANK_UNBLANK]),
              .assert_failed⟩) := by
  refine ⟨⟨?_, ?_⟩, ?_, ?_⟩
  · rintro ⟨fuel, h⟩
    by_contra hcon
    push_neg at hcon
    rw [fb_unblank_thread_running env fuel hcon.1 (fun m _ => hcon.2 m)] at h
    simp at h
  · intro h
    by_cases hopen : env.open_ret = -1
    · exact ⟨0, by rw [fb_unblank_thread_open_failed env 0 hopen]⟩
    · have hex : ∃ n, env.ioctl_ret n ≠ 0 := by
        rcases h with h | h
        · exact absurd h hopen
        · exact h
      refine ⟨Nat.find hex + 1, ?_⟩
      rw [fb_unblank_thread_ioctl_failed env (Nat.find hex) (Nat.find hex + 1) hopen
        (fun m hm => by simpa using Nat.find_min hex hm) (Nat.find_spec hex) (Nat.lt_succ_self _)]
  · intro h fuel
    exact fb_unblank_thread_open_failed env fuel h
  · intro n hopen hok hbad fuel hlt
    exact fb_unblank_thread_ioctl_failed env n fuel hopen hok hbad hlt

/-- Concrete instance of C4: with `open` returning -1 only `open` is called; with `open`
returning 3 and the third `ioctl` returning -1, six calls are issued and then none. -/
theorem fb_unblank_thread_assertion_failure_witness :
    fb_unblank_thread ⟨-1, fun _ => 0⟩ 4 =
        ⟨[Event.sys_open "/dev/fb0" O_RDWR], .assert_failed⟩ ∧
      fb_unblank_thread ⟨3, fun n => if n = 2 then -1 else 0⟩ 5 =
        ⟨Event.sys_open "/dev/fb0" O_RDWR ::
            (fb_iterations 3 2 ++ [Event.ioctl 3 FBIOBLANK FB_BLANK_UNBLANK]),
          .assert_failed⟩ :=
  ⟨(fb_unblank_thread_assertion_failure ⟨-1, fun _ => 0⟩).2.1 rfl 4,
    (fb_unblank_thread_assertion_failure ⟨3, fun n => if n = 2 then -1 else 0⟩).2.2 2
      (by decide) (by decide) (by decide) 5 (by decide)⟩

/-- C5: as long as `open` and every `ioctl` succeed, after any number `fuel` of loop
iterations the thread has issued `open("/dev/fb0", O_RDWR)` followed by `fuel` times
the pair `ioctl(fd, FBIOBLANK, FB_BLANK_UNBLANK)`, `sleep(1)` on the descriptor `open`
returned (for every `n >= 1` up to `fuel`, calls number `2n-1` and `2n` after the
`open`), the loop is still running, `close` has not been called and the function has
not returned. -/
theorem fb_unblank_thread_runs_forever (env : FbEnv) (hopen : env.open_ret ≠ -1)
    (hioctl : ∀ n, env.ioctl_ret n = 0) (fuel : Nat) :
    fb_unblank_thread env fuel =
        ⟨Event.sys_open "/dev/fb0" O_RDWR :: fb_iterations env.open_ret fuel, .running⟩ ∧
      (fb_unblank_thread env fuel).trace[0]? = some (Event.sys_open "/dev/fb0" O_RDWR) ∧
      (∀ n, 1 ≤ n → n ≤ fuel →
        (fb_unblank_thread env fuel).trace[2 * n - 1]? =
            some (Event.ioctl env.open_ret FBIOBLANK FB_BLANK_UNBLANK) ∧
          (fb_unblank_thread env fuel).trace[2 * n]? = some (Event.sleep 1)) ∧
      (∀ fd, Event.close fd ∉ (fb_unblank_thread env fuel).trace) ∧
      (∀ v, (fb_unblank_thread env fuel).outcome ≠ .returned v) := by
  have h := fb_unblank_thread_running env fuel hopen (fun m _ => hioctl m)
  refine ⟨h, ?_, ?_, ?_, ?_⟩
  · rw [h]; simp
  · intro n h1 hn
    obtain ⟨j, rfl⟩ : ∃ j, n = j + 1 := ⟨n - 1, by omega⟩
    have hj := fb_iterations_getElem env.open_ret fuel j (by omega)
    rw [h]
    constructor
    · rw [show 2 * (j + 1) - 1 = 2 * j + 1 by omega]
      simpa using hj.1
    · rw [show 2 * (j + 1) = 2 * j + 1 + 1 by omega]
      simpa using hj.2
  · intro fd
    rw [h]
    simp [fb_iterations_no_close]
  · intro v
    rw [h]
    simp

/-- Concrete instance of C5: `open` returns 3 and every `ioctl` returns 0, four iterations. -/
theorem fb_unblank_thread_runs_forever_witness :
    fb_unblank_thread ⟨3, fun _ => 0⟩ 4 =
      ⟨Event.sys_open "/dev/fb0" O_RDWR :: fb_iterations 3 4, .running⟩ :=
  (fb_unblank_thread_runs_forever ⟨3, fun _ => 0⟩ (by decide) (fun _ => rfl) 4).1

/-- C6, as stated, fails: with one argument besides the program name, the main thread
issues calls between the second `pthread_create` and `memtester_main`. -/
theorem main_not_immediately_memtester :
    between_threads_and_memtester (main 2 ["lima-memtester", "100M"] (some 0)).trace ≠ [] := by
  rw [main_trace]
  decide

/-- C6, amended: when `argc > 1`, between the second `pthread_create` and the call of
`memtester_main` the main thread issues exactly `usleep(300000)` and `printf("\n")`,
in this order. -/
theorem main_waits_then_memtester (argc : Int) (argv : List String)
    (memtester_ret : Option Int) (h : argc > 1) :
    between_threads_and_memtester (main argc argv memtester_ret).trace =
      [Event.usleep 300000, Event.printf "\n"] := by
  rw [main_trace]
  simp [h, between_threads_and_memtester, Event.is_memtester_main]

/-- Concrete instance of the amended C6 at `argc = 2`. -/
theorem main_waits_then_memtester_witness :
    between_threads_and_memtester (main 2 ["lima-memtester", "100M"] (some 0)).trace =
      [Event.usleep 300000, Event.printf "\n"] :=
  main_waits_then_memtester 2 ["lima-memtester", "100M"] (some 0) (by decide)

end LimaMemtester

/-! ## `limare/tests/fan_smoothed/limare.c` -/

namespace FanSmoothed

theorem main_init_failed (env : Env) (hinit : env.limare_init = NULL) :
    main env = ⟨[Call.limare_init], .returned (-1)⟩ := by
  simp [main, bind, Run.bind, Run.call, pure, hinit]

theorem main_setup_failed (env : Env) (hinit : env.limare_init ≠ NULL)
    (hsetup : env.limare_state_setup ≠ 0) :
    main env =
      ⟨[Call.limare_init,
        Call.limare_buffer_clear env.limare_init,
        Call.limare_state_setup env.limare_init 0 0 0xFF505050],
       .returned env.limare_state_setup⟩ := by
  simp [main, bind, Run.bind, Run.call, pure, hinit, hsetup]

theorem main_draw_failed (env : Env) (hinit : env.limare_init ≠ NULL)
    (hsetup : env.limare_state_setup = 0) (hdraw : env.limare_draw_arrays ≠ 0) :
    main env =
      ⟨[Call.limare_init,
        Call.limare_buffer_clear env.limare_init,
        Call.limare_state_setup env.limare_init 0 0 0xFF505050,
        Call.vertex_shader_attach env.limare_init vertex_shader_source,
        Call.fragment_shader_attach env.limare_init fragment_shader_source,
        Call.limare_link env.limare_init,
        Call.limare_attribute_pointer env.limare_init "aPosition" 4 3 6 vertices,
        Call.limare_attribute_pointer env.limare_init "aColor" 4 4 6 colors,
        Call.limare_new env.limare_init,
        Call.limare_draw_arrays env.limare_init GL_TRIANGLE_FAN 0 6],
       .returned env.limare_draw_arrays⟩ := by
  simp [main, bind, Run.bind, Run.call, pure, hinit, hsetup, hdraw]

theorem main_flush_failed (env : Env) (hinit : env.limare_init ≠ NULL)
    (hsetup : env.limare_state_setup = 0) (hdraw : env.limare_draw_arrays = 0)
    (hflush : env.limare_flush ≠ 0) :
    main env =
      ⟨[Call.limare_init,
        Call.limare_buffer_clear env.limare_init,
        Call.limare_state_setup env.limare_init 0 0 0xFF505050,
        Call.vertex_shader_attach env.limare_init vertex_shader_source,
        Call.fragment_shader_attach env.limare_init fragment_shader_source,
        Call.limare_link env.limare_init,
        Call.limare_attribute_pointer env.limare_init "aPosition" 4 3 6 vertices,
        Call.limare_attribute_pointer env.limare_init "aColor" 4 4 6 colors,
        Call.limare_new env.limare_init,
        Call.limare_draw_arrays env.limare_init GL_TRIANGLE_FAN 0 6,
        Call.limare_flush env.limare_init],
       .returned env.limare_flush⟩ := by
  simp [main, bind, Run.bind, Run.call, pure, hinit, hsetup, hdraw, hflush]

theorem main_succeeded (env : Env) (hinit : env.limare_init ≠ NULL)
    (hsetup : env.limare_state_setup = 0) (hdraw : env.limare_draw_arrays = 0)
    (hflush : env.limare_flush = 0) :
    main env =
      ⟨[Call.limare_init,
        Call.limare_buffer_clear env.limare_init,
        Call.limare_state_setup env.limare_init 0 0 0xFF505050,
        Call.vertex_shader_attach env.limare_init vertex_shader_source,
        Call.fragment_shader_attach env.limare_init fragment_shader_source,
        Call.limare_link env.limare_init,
        Call.limare_attribute_pointer env.limare_init "aPosition" 4 3 6 vertices,
        Call.limare_attribute_pointer env.limare_init "aColor" 4 4 6 colors,
        Call.limare_new env.limare_init,
        Call.limare_draw_arrays env.limare_init GL_TRIANGLE_FAN 0 6,
        Call.limare_flush env.limare_init,
        Call.limare_buffer_swap env.limare_init,
        Call.limare_finish env.limare_init],
       .returned 0⟩ := by
  simp [main, bind, Run.bind, Run.call, pure, hinit, hsetup, hdraw, hflush]

/-- C7: when `limare_init` returns a non-null state and `limare_state_setup`,
`limare_draw_arrays` and `limare_flush` return 0, `main` issues exactly the thirteen
calls listed, in this order, and returns 0; among them the steps init, buffer clear,
link, attribute pointer (`aPosition` then `aColor`), draw arrays, flush, buffer swap
and finish occur in this order, each exactly once. -/
theorem fan_main_call_sequence (env : Env) (hinit : env.limare_init ≠ NULL)
    (hsetup : env.limare_state_setup = 0) (hdraw : env.limare_draw_arrays = 0)
    (hflush : env.limare_flush = 0) :
    main env =
        ⟨[Call.limare_init,
          Call.limare_buffer_clear env.limare_init,
          Call.limare_state_setup env.limare_init 0 0 0xFF505050,
          Call.vertex_shader_attach env.limare_init vertex_shader_source,
          Call.fragment_shader_attach env.limare_init fragment_shader_source,
          Call.limare_link env.limare_init,
          Call.limare_attribute_pointer env.limare_init "aPosition" 4 3 6 vertices,
          Call.limare_attribute_pointer env.limare_init "aColor" 4 4 6 colors,
          Call.limare_new env.limare_init,
          Call.limare_draw_arrays env.limare_init GL_TRIANGLE_FAN 0 6,
          Call.limare_flush env.limare_init,
          Call.limare_buffer_swap env.limare_init,
          Call.limare_finish env.limare_init],
         .returned 0⟩ ∧
      (main env).trace.filter Call.is_sequence_step =
        [Call.limare_init,
         Call.limare_buffer_clear env.limare_init,
         Call.limare_link env.limare_init,
         Call.limare_attribute_pointer env.limare_init "aPosition" 4 3 6 vertices,
         Call.limare_attribute_pointer env.limare_init "aColor" 4 4 6 colors,
         Call.limare_draw_arrays env.limare_init GL_TRIANGLE_FAN 0 6,
         Call.limare_flush env.limare_init,
         Call.limare_buffer_swap env.limare_init,
         Call.limare_finish env.limare_init] := by
  have h := main_succeeded env hinit hsetup hdraw hflush
  refine ⟨h, ?_⟩
  rw [h]
  simp [Call.is_sequence_step]

/-- Concrete instance of C7: the state pointer is 1 and the three checked calls return 0. -/
theorem fan_main_call_sequence_witness :
    (main ⟨1, 0, 0, 0⟩).outcome = .returned 0 :=
  congrArg Run.outcome (fan_main_call_sequence ⟨1, 0, 0, 0⟩ (by decide) rfl rfl rfl).1

/-- C8: `vertices` has 6*3 = 18 elements and `colors` has 6*4 = 24; once
`limare_state_setup` has succeeded, the two `limare_attribute_pointer` calls pass
these arrays with component counts 3 and 4 and entry count 6, the only
`limare_draw_arrays` call starts at index 0 and draws 6 entries, and every index `i`
it draws satisfies `3*i+2 < 18` and `4*i+3 < 24`. -/
theorem fan_main_draw_data (env : Env) (hinit : env.limare_init ≠ NULL)
    (hsetup : env.limare_state_setup = 0) :
    vertices.length = 6 * 3 ∧ colors.length = 6 * 4 ∧
      vertices.length = 18 ∧ colors.length = 24 ∧
      attribute_pointers (main env).trace =
        [("aPosition", 3, 6, vertices), ("aColor", 4, 6, colors)] ∧
      draw_ranges (main env).trace = [(0, 6)] ∧
      ∀ i, 0 ≤ i → i < 0 + 6 →
        3 * i + 2 < vertices.length ∧ 3 * i + 2 < 18 ∧
          4 * i + 3 < colors.length ∧ 4 * i + 3 < 24 := by
  have hv : vertices.length = 18 := rfl
  have hc : colors.length = 24 := rfl
  refine ⟨hv, hc, hv, hc, ?_, ?_, ?_⟩
  · by_cases hdraw : env.limare_draw_arrays = 0
    · by_cases hflush : env.limare_flush = 0
      · rw [main_succeeded env hinit hsetup hdraw hflush]; rfl
      · rw [main_flush_failed env hinit hsetup hdraw hflush]; rfl
    · rw [main_draw_failed env hinit hsetup hdraw]; rfl
  · by_cases hdraw : env.limare_draw_arrays = 0
    · by_cases hflush : env.limare_flush = 0
      · rw [main_succeeded env hinit hsetup hdraw hflush]; rfl
      · rw [main_flush_failed env hinit hsetup hdraw hflush]; rfl
    · rw [main_draw_failed env hinit hsetup hdraw]; rfl
  · intro i _ hi
    rw [hv, hc]
    omega

/-- Concrete instance of C8: the state pointer is 1 and every checked call returns 0. -/
theorem fan_main_draw_data_witness :
    attribute_pointers (main ⟨1, 0, 0, 0⟩).trace =
        [("aPosition", 3, 6, vertices), ("aColor", 4, 6, colors)] ∧
      draw_ranges (main ⟨1, 0, 0, 0⟩).trace = [(0, 6)] :=
  ⟨(fan_main_draw_data ⟨1, 0, 0, 0⟩ (by decide) rfl).2.2.2.2.1,
    (fan_main_draw_data ⟨1, 0, 0, 0⟩ (by decide) rfl).2.2.2.2.2.1⟩

/-- C10: `main` stops at the first failing step and returns its code.  If
`limare_init` returns null, the only call is `limare_init` and `main` returns -1.  If
`limare_state_setup`, `limare_draw_arrays` or `limare_flush` is the first to return a
non-zero value `r`, the trace ends with that call (so `limare_buffer_swap` and
`limare_finish` are not called) and `main` returns `r`.  Hence `main` returns 0 only
if `limare_init` returned non-null and the three other steps returned 0. -/
theorem fan_main_stops_at_first_failure (env : Env) :
    (env.limare_init = NULL → main env = ⟨[Call.limare_init], .returned (-1)⟩) ∧
      (env.limare_init ≠ NULL → env.limare_state_setup ≠ 0 →
        main env =
          ⟨[Call.limare_init,
            Call.limare_buffer_clear env.limare_init,
            Call.limare_state_setup env.limare_init 0 0 0xFF505050],
           .returned env.limare_state_setup⟩) ∧
      (env.limare_init ≠ NULL → env.limare_state_setup = 0 → env.limare_draw_arrays ≠ 0 →
        main env =
          ⟨[Call.limare_init,
            Call.limare_buffer_clear env.limare_init,
            Call.limare_state_setup env.limare_init 0 0 0xFF505050,
            Call.vertex_shader_attach env.limare_init vertex_shader_source,
            Call.fragment_shader_attach env.limare_init fragment_shader_source,
            Call.limare_link env.limare_init,
            Call.limare_attribute_pointer env.limare_init "aPosition" 4 3 6 vertices,
            Call.limare_attribute_pointer env.limare_init "aColor" 4 4 6 colors,
            Call.limare_new env.limare_init,
            Call.limare_draw_arrays env.limare_init GL_TRIANGLE_FAN 0 6],
           .returned env.limare_draw_arrays⟩) ∧
      (env.limare_init ≠ NULL → env.limare_state_setup = 0 → env.limare_draw_arrays = 0 →
        env.limare_flush ≠ 0 →
        main env =
          ⟨[Call.limare_init,
            Call.limare_buffer_clear env.limare_init,
            Call.limare_state_setup env.limare_init 0 0 0xFF505050,
            Call.vertex_shader_attach env.limare_init vertex_shader_source,
            Call.fragment_shader_attach env.limare_init fragment_shader_source,
            Call.limare_link env.limare_init,
            Call.limare_attribute_pointer env.limare_init "aPosition" 4 3 6 vertices,
            Call.limare_attribute_pointer env.limare_init "aColor" 4 4 6 colors,
            Call.limare_new env.limare_init,
            Call.limare_draw_arrays env.limare_init GL_TRIANGLE_FAN 0 6,
            Call.limare_flush env.limare_init],
           .returned env.limare_flush⟩) ∧
      ((main env).outcome = .returned 0 →
        env.limare_init ≠ NULL ∧ env.limare_state_setup = 0 ∧ env.limare_draw_arrays = 0 ∧
          env.limare_flush = 0) := by
  refine ⟨main_init_failed env, main_setup_failed env, main_draw_failed env,
    main_flush_failed env, ?_⟩
  intro h
  by_cases hinit : env.limare_init = NULL
  · rw [main_init_failed env hinit] at h
    simp at h
  by_cases hsetup : env.limare_state_setup = 0
  swap
  · rw [main_setup_failed env hinit hsetup] at h
    simp at h
    exact absurd h hsetup
  by_cases hdraw : env.limare_draw_arrays = 0
  swap
  · rw [main_draw_failed env hinit hsetup hdraw] at h
    simp at h
    exact absurd h hdraw
  by_cases hflush : env.limare_flush = 0
  swap
  · rw [main_flush_failed env hinit hsetup hdraw hflush] at h
    simp at h
    exact absurd h hflush
  exact ⟨hinit, hsetup, hdraw, hflush⟩

/-- Concrete instance of C10: a null state; then state 1 with `limare_state_setup`,
`limare_draw_arrays` and `limare_flush` in turn the first to fail, returning 5, -2
and 7. -/
theorem fan_main_stops_at_first_failure_witness :
    main ⟨NULL, 0, 0, 0⟩ = ⟨[Call.limare_init], .returned (-1)⟩ ∧
      (main ⟨1, 5, 0, 0⟩).outcome = .returned 5 ∧
      (main ⟨1, 0, -2, 0⟩).outcome = .returned (-2) ∧
      (main ⟨1, 0, 0, 7⟩).outcome = .returned 7 :=
  ⟨(fan_main_stops_at_first_failure ⟨NULL, 0, 0, 0⟩).1 rfl,
    congrArg Run.outcome
      ((fan_main_stops_at_first_failure ⟨1, 5, 0, 0⟩).2.1 (by decide) (by decide)),
    congrArg Run.outcome
      ((fan_main_stops_at_first_failure ⟨1, 0, -2, 0⟩).2.2.1 (by decide) rfl (by decide)),
    congrArg Run.outcome
      ((fan_main_stops_at_first_failure ⟨1, 0, 0, 7⟩).2.2.2.1 (by decide) rfl rfl (by decide))⟩

end FanSmoothed
